import Mathlib

/-
Verification of the beam file relay (src/src/lib.rs).

The relay pairs one uploading HTTP connection with one downloading HTTP
connection through an in-memory registry keyed by filename.  The upload
handler registers a session (a bounded mpsc channel plus a oneshot ready
signal), spawns a pump task that waits for the ready signal with a 300 s
timeout and then forwards body chunks into the channel, and finally maps
the completion outcome to an HTTP status.  The download handler removes
the session from the registry, fires the ready signal and streams the
channel as its response body.  Basic authentication guards both handlers.

The definitions below are a shallow embedding of that code: each carries
the line numbers of the Rust source it transliterates.  Concurrency is
modelled by making the outcomes of the asynchronous interactions (the
ready oneshot, receiver liveness of the channel) explicit parameters of
the pump function, and by a small event-trace semantics for the registry.
-/

namespace Beam

/-- Bytes are opaque payload units; a chunk is one Bytes frame of a body. -/
abbrev Byte := Nat

/-- One data chunk, as carried by a body frame or a channel slot. -/
abbrev Chunk := List Byte

/-- A frame of the inbound HTTP body: either a data frame or a non-data
frame (trailers), mirroring http_body Frame and frame.into_data at
lib.rs line 299. -/
inductive Frame
  | data (c : Chunk)
  | trailers
deriving DecidableEq, Repr

/-- One item yielded by BodyStream::next (lib.rs line 296): a frame or a
read error from the inbound body, with the message of the error. -/
inductive BodyItem
  | ok (f : Frame)
  | err (msg : String)
deriving DecidableEq, Repr

/-- One slot of the relay channel, Result of Bytes and axum Error
(lib.rs line 85): a data chunk or the in-band error marker. -/
inductive ChanItem
  | ok (c : Chunk)
  | err (msg : String)
deriving DecidableEq, Repr

/-- Outcome of awaiting the ready oneshot under the 300 s timeout
(lib.rs line 278): the signal arrived, the sender was dropped without a
signal, or the timeout elapsed. -/
inductive ReadyOutcome
  | signaled
  | dropped
  | timedOut
deriving DecidableEq, Repr

/-- Value sent on the completion oneshot by the pump task
(lib.rs line 252): Ok or Err with a message. -/
inductive TaskOutcome
  | ok
  | err (msg : String)
deriving DecidableEq, Repr

/-- Result of awaiting the completion oneshot in the upload handler
(lib.rs line 320): a delivered outcome, or the sender side dropped
(the spawned task died without sending). -/
inductive CompleteRecv
  | got (o : TaskOutcome)
  | senderDropped
deriving DecidableEq, Repr

/-- HTTP response, reduced to status code and body text. -/
structure Response where
  status : Nat
  body : String
deriving DecidableEq, Repr

/-- Session identity: a fresh number standing for one StreamData value
(receiver plus ready sender, lib.rs lines 84 to 87).  Identities let the
trace semantics distinguish which session a removal deletes. -/
abbrev SessionId := Nat

/-- The stream registry, HashMap String StreamData at lib.rs line 52,
modelled as an association list with unique keys. -/
abbrev Registry := List (String × SessionId)

/-- Lookup of a key in the registry. -/
def lookupKey : Registry → String → Option SessionId
  | [], _ => none
  | (k, v) :: rest, f => if k = f then some v else lookupKey rest f

/-- Removal of a key from the registry (HashMap remove). -/
def removeKey : Registry → String → Registry
  | [], _ => []
  | (k, v) :: rest, f => if k = f then removeKey rest f else (k, v) :: removeKey rest f

/-- Authentication failure taxonomy (lib.rs lines 89 to 93). -/
inductive AuthError
  | unauthorized
  | internal
deriving DecidableEq, Repr

/-- Parsed Basic credentials (headers Authorization Basic). -/
structure BasicCreds where
  username : String
  password : String
deriving DecidableEq, Repr

/-- Response for an Unauthorized failure (lib.rs lines 105 to 111). -/
def unauthorized_response (message : String) : Response :=
  { status := 401, body := message }

/-- Mapping from an AuthError to the HTTP response
(lib.rs lines 95 to 103). -/
def auth_error_response : AuthError → Response
  | AuthError.unauthorized => unauthorized_response ("Invalid username or password")
  | AuthError.internal => { status := 500, body := ("Authentication failed") }

/-- Extraction of Basic credentials from the request headers
(lib.rs lines 113 to 124).  The header state is modelled as
none when the Authorization header is absent, some none when it is
present but fails to decode, and some (some c) when it decodes to
credentials c.  Absence and decode failure are both Unauthorized. -/
def extract_basic_auth : Option (Option BasicCreds) → Except AuthError BasicCreds
  | none => Except.error AuthError.unauthorized
  | some none => Except.error AuthError.unauthorized
  | some (some c) => Except.ok c

/-- Configured credential state: the username and the argon2 hash string
produced at startup (lib.rs lines 65 to 81). -/
structure AuthConfig where
  username : String
  password_hash : String
deriving DecidableEq, Repr

/-- Credential verification (lib.rs lines 126 to 151).  The argon2
operations are opaque oracles: parseHash models PasswordHash new
(none on a hash-parsing failure), verifyPassword models the one-way
verify_password check.  The checks run in source order: username
equality, empty password, hash parsing, password verification. -/
def authenticate_user {H : Type} (parseHash : String → Option H)
    (verifyPassword : String → H → Bool) (cfg : AuthConfig) (auth : BasicCreds) :
    Except AuthError Unit :=
  if auth.username ≠ cfg.username then Except.error AuthError.unauthorized
  else if auth.password = "" then Except.error AuthError.unauthorized
  else
    match parseHash cfg.password_hash with
    | none => Except.error AuthError.internal
    | some h =>
        if verifyPassword auth.password h then Except.ok ()
        else Except.error AuthError.unauthorized

/-- Conflict response of the upload handler (lib.rs lines 256 to 261). -/
def conflict_response : Response :=
  { status := 409, body := ("An upload is already in progress for this filename") }

/-- Registration step of the upload handler (lib.rs lines 254 to 271):
under the registry write lock, fail with Conflict when the filename is
present, otherwise insert the new session and return no response. -/
def upload_register (streams : Registry) (filename : String) (fresh : SessionId) :
    Registry × Option Response :=
  if (lookupKey streams filename).isSome then (streams, some conflict_response)
  else ((filename, fresh) :: streams, none)

/-- NotFound response of the download handler (lib.rs lines 208 to 212). -/
def not_found_response : Response :=
  { status := 404, body := ("No active upload stream for this file") }

/-- Claim step of the download handler (lib.rs lines 205 to 214): under
the registry write lock, remove and return the entry for the filename,
or fail with NotFound when absent. -/
def download_claim (streams : Registry) (filename : String) :
    Registry × Except Response SessionId :=
  match lookupKey streams filename with
  | some sid => (removeKey streams filename, Except.ok sid)
  | none => (streams, Except.error not_found_response)

/-- Liveness of the channel receiver.  The downloader may drop the
receiving end after consuming some items; dropAfter none means the
receiver stays alive, dropAfter (some k) means the send of item number
k (counting from zero) is the first to fail. -/
def sendOk (dropAfter : Option Nat) (i : Nat) : Bool :=
  match dropAfter with
  | none => true
  | some k => i < k

/-- The pump loop of the spawned upload task (lib.rs lines 296 to 314),
after the ready signal arrived.  Argument i counts the sends attempted
so far.  A data frame is sent when the receiver is alive; a failed send
means the downloader disconnected, the loop breaks and the outcome is
Ok (lib.rs lines 300 to 303 and 316 to 317).  A non-data frame is
skipped (lib.rs line 299).  A body read error pushes the in-band error
marker on the channel, reports Err on the completion oneshot and stops
(lib.rs lines 306 to 312).  Returns the list of items that entered the
channel, in send order, together with the completion outcome. -/
def pumpChunks (dropAfter : Option Nat) : Nat → List BodyItem → List ChanItem × TaskOutcome
  | _, [] => ([], TaskOutcome.ok)
  | i, BodyItem.ok (Frame.data c) :: rest =>
      if sendOk dropAfter i then
        let r := pumpChunks dropAfter (i + 1) rest
        (ChanItem.ok c :: r.1, r.2)
      else ([], TaskOutcome.ok)
  | i, BodyItem.ok Frame.trailers :: rest => pumpChunks dropAfter i rest
  | i, BodyItem.err m :: _ =>
      if sendOk dropAfter i then
        ([ChanItem.err m], TaskOutcome.err (("Stream error: ") ++ m))
      else ([], TaskOutcome.err (("Stream error: ") ++ m))

/-- The whole spawned upload task (lib.rs lines 277 to 318): first the
ready oneshot under the 300 s timeout; a dropped sender or a timeout
reports Err on the completion oneshot without reading any input; the
signal starts the pump loop. -/
def upload_task (ready : ReadyOutcome) (dropAfter : Option Nat) (body : List BodyItem) :
    List ChanItem × TaskOutcome :=
  match ready with
  | ReadyOutcome.signaled => pumpChunks dropAfter 0 body
  | ReadyOutcome.dropped => ([], TaskOutcome.err ("Ready channel dropped"))
  | ReadyOutcome.timedOut => ([], TaskOutcome.err ("Timeout waiting for download client"))

/-- Completion step of the upload handler (lib.rs lines 320 to 333):
every arm removes the filename from the registry, then Ok maps to 200,
a task error to 400 and a dropped completion sender to 500. -/
def upload_finish (streams : Registry) (filename : String) (r : CompleteRecv) :
    Registry × Response :=
  match r with
  | CompleteRecv.got TaskOutcome.ok =>
      (removeKey streams filename, { status := 200, body := ("Upload completed successfully") })
  | CompleteRecv.got (TaskOutcome.err e) =>
      (removeKey streams filename, { status := 400, body := ("Upload failed: ") ++ e })
  | CompleteRecv.senderDropped =>
      (removeKey streams filename, { status := 500, body := ("Upload task failed") })

/-- The upload handler (lib.rs lines 235 to 334) for one request, with
the asynchronous interactions given as parameters: extract credentials,
authenticate, register, run the task, map the completion outcome.
Returns the final registry, the response, and the items the task placed
on the relay channel. -/
def upload_handler {H : Type} (hdr : Option (Option BasicCreds))
    (parseHash : String → Option H) (verifyPassword : String → H → Bool)
    (cfg : AuthConfig) (streams : Registry) (filename : String) (fresh : SessionId)
    (ready : ReadyOutcome) (dropAfter : Option Nat) (body : List BodyItem) :
    Registry × Response × List ChanItem :=
  match extract_basic_auth hdr with
  | Except.error e => (streams, auth_error_response e, [])
  | Except.ok auth =>
      match authenticate_user parseHash verifyPassword cfg auth with
      | Except.error e => (streams, auth_error_response e, [])
      | Except.ok _ =>
          match upload_register streams filename fresh with
          | (s, some resp) => (s, resp, [])
          | (s1, none) =>
              let t := upload_task ready dropAfter body
              let fin := upload_finish s1 filename (CompleteRecv.got t.2)
              (fin.1, fin.2, t.1)

/-- Result of the download handler: final registry, response status, the
claimed session when one was consumed, and whether the ready signal was
fired. -/
structure DownloadResult where
  streams : Registry
  status : Nat
  claimed : Option SessionId
  firedReady : Bool
deriving DecidableEq, Repr

/-- The download handler (lib.rs lines 191 to 233): extract credentials,
authenticate, claim the session, fire the ready signal, stream the
channel as a 200 response. -/
def download_handler {H : Type} (hdr : Option (Option BasicCreds))
    (parseHash : String → Option H) (verifyPassword : String → H → Bool)
    (cfg : AuthConfig) (streams : Registry) (filename : String) : DownloadResult :=
  match extract_basic_auth hdr with
  | Except.error e => ⟨streams, (auth_error_response e).status, none, false⟩
  | Except.ok auth =>
      match authenticate_user parseHash verifyPassword cfg auth with
      | Except.error e => ⟨streams, (auth_error_response e).status, none, false⟩
      | Except.ok _ =>
          match download_claim streams filename with
          | (s, Except.error resp) => ⟨s, resp.status, none, false⟩
          | (s, Except.ok sid) => ⟨s, 200, some sid, true⟩

/-- Bytes observed by the downloader from the channel items: data chunks
concatenate in order; the in-band error marker ends the stream with an
observable error (lib.rs lines 222 to 223 map channel items one to one
into response body frames). -/
def downloadedBytes : List ChanItem → Except String (List Byte)
  | [] => Except.ok []
  | ChanItem.ok c :: rest =>
      match downloadedBytes rest with
      | Except.ok bs => Except.ok (c ++ bs)
      | Except.error e => Except.error e
  | ChanItem.err e :: _ => Except.error e

/-- Concatenation of a list of chunks into a byte list. -/
def flattenChunks : List Chunk → List Byte
  | [] => []
  | c :: rest => c ++ flattenChunks rest

/-- Body made only of data frames carrying the given chunks. -/
def bodyOfChunks (chunks : List Chunk) : List BodyItem :=
  chunks.map (fun c => BodyItem.ok (Frame.data c))

/-- Which side connects first in an end-to-end exchange. -/
inductive ArrivalOrder
  | uploadFirst
  | downloadFirst
deriving DecidableEq, Repr

/-- End-to-end exchange of one upload and one download for the same
filename against an initially empty registry, returning the bytes the
downloader obtains, or none when no successful relay happens.  With the
upload first: the upload registers, the download claims the session and
fires the ready signal, the task pumps the whole body while the
receiver stays alive.  With the download first: the claim finds an
empty registry and the download handler answers 404 at once
(lib.rs lines 205 to 214); no relay takes place and the later upload
times out unclaimed. -/
def relayExchange (order : ArrivalOrder) (filename : String) (chunks : List Chunk) :
    Option (List Byte) :=
  match order with
  | ArrivalOrder.uploadFirst =>
      match upload_register [] filename 0 with
      | (_, some _) => none
      | (s1, none) =>
          match download_claim s1 filename with
          | (_, Except.error _) => none
          | (_, Except.ok _) =>
              match downloadedBytes (upload_task ReadyOutcome.signaled none
                  (bodyOfChunks chunks)).1 with
              | Except.ok bs => some bs
              | Except.error _ => none
  | ArrivalOrder.downloadFirst =>
      match download_claim [] filename with
      | (_, Except.ok _) => none
      | (_, Except.error _) => none

/-- Who removed a session from the registry in the trace semantics. -/
inductive RemovedBy
  | byClaim
  | byFinish
deriving DecidableEq, Repr

/-- State of the registry trace semantics: the registry, the next fresh
session identity, and the log of removals with their causes. -/
structure RState where
  reg : Registry
  fresh : Nat
  removals : List (SessionId × RemovedBy)
deriving DecidableEq, Repr

/-- Registry events that the two handlers perform, in the order a
schedule interleaves them.  register is the insertion step of an upload
handler (lib.rs lines 254 to 271); claim is the removal step of a
download handler (lib.rs line 205); finish is the unconditional removal
an upload handler performs after its completion oneshot resolves, in
every arm (lib.rs lines 322, 326 and 330). -/
inductive Ev
  | register (f : String)
  | claim (f : String)
  | finish (f : String)
deriving DecidableEq, Repr

/-- One step of the registry trace semantics. -/
def stepEv (s : RState) (e : Ev) : RState :=
  match e with
  | Ev.register f =>
      if (lookupKey s.reg f).isSome then s
      else { s with reg := (f, s.fresh) :: s.reg, fresh := s.fresh + 1 }
  | Ev.claim f =>
      match lookupKey s.reg f with
      | some sid =>
          { s with reg := removeKey s.reg f, removals := s.removals ++ [(sid, RemovedBy.byClaim)] }
      | none => s
  | Ev.finish f =>
      match lookupKey s.reg f with
      | some sid =>
          { s with reg := removeKey s.reg f, removals := s.removals ++ [(sid, RemovedBy.byFinish)] }
      | none => s

/-- Run of a trace of registry events from the empty registry. -/
def runTrace (evs : List Ev) : RState :=
  evs.foldl stepEv { reg := [], fresh := 0, removals := [] }

/-- Sample filename used by concrete witnesses. -/
def sampleName : String := "f"

/-- Action order inside the download handler after a successful claim
(lib.rs lines 216 to 232): first the ready signal fires, then the
response streams the channel items. -/
inductive DAct
  | fireReady
  | readChunk (c : ChanItem)
deriving DecidableEq, Repr

/-- Trace of actions the download handler performs for a claimed session
whose channel delivers the given items: the ready signal fires before
any item is consumed. -/
def download_consume_trace (items : List ChanItem) : List DAct :=
  DAct.fireReady :: items.map DAct.readChunk

/-- After removeKey, the key is gone from the registry. -/
theorem lookupKey_removeKey (streams : Registry) (f : String) :
    lookupKey (removeKey streams f) f = none := by
  induction streams with
  | nil => rfl
  | cons kv rest ih =>
      obtain ⟨k, v⟩ := kv
      by_cases h : k = f
      · simpa [removeKey, h] using ih
      · simp [removeKey, lookupKey, h, ih]

/-- With a live receiver, the pump forwards every chunk of an all-data
body, in order, and completes with Ok. -/
theorem pumpChunks_none (chunks : List Chunk) (i : Nat) :
    pumpChunks none i (bodyOfChunks chunks) = (chunks.map ChanItem.ok, TaskOutcome.ok) := by
  induction chunks generalizing i with
  | nil => rfl
  | cons c rest ih =>
      have h := ih (i + 1)
      simp [bodyOfChunks, pumpChunks, sendOk] at h ⊢
      simp [h]

/-- With a receiver that drops after k items, the pump forwards exactly
the first k minus i remaining chunks and completes with Ok. -/
theorem pumpChunks_dropAfter (k : Nat) (chunks : List Chunk) (i : Nat) :
    pumpChunks (some k) i (bodyOfChunks chunks)
      = ((chunks.take (k - i)).map ChanItem.ok, TaskOutcome.ok) := by
  induction chunks generalizing i with
  | nil => simp [bodyOfChunks, pumpChunks]
  | cons c rest ih =>
      by_cases h : i < k
      · have hk : k - i = (k - (i + 1)) + 1 := by omega
        have hr := ih (i + 1)
        simp [bodyOfChunks, pumpChunks, sendOk] at hr ⊢
        simp [h, hr, hk]
      · have hk : k - i = 0 := by omega
        simp [bodyOfChunks, pumpChunks, sendOk, h, hk]

/-- A body read error after a prefix of data frames: the pump forwards
the prefix, pushes the in-band error marker, ignores the rest of the
body and completes with Err. -/
theorem pumpChunks_err (pre : List Chunk) (m : String) (rest : List BodyItem) (i : Nat) :
    pumpChunks none i (bodyOfChunks pre ++ BodyItem.err m :: rest)
      = (pre.map ChanItem.ok ++ [ChanItem.err m],
         TaskOutcome.err (("Stream error: ") ++ m)) := by
  induction pre generalizing i with
  | nil => simp [bodyOfChunks, pumpChunks, sendOk]
  | cons c cs ih =>
      have h := ih (i + 1)
      simp [bodyOfChunks, pumpChunks, sendOk] at h ⊢
      simp [h]

/-- Channel items that are all data chunks download to their
concatenation. -/
theorem downloadedBytes_ok (chunks : List Chunk) :
    downloadedBytes (chunks.map ChanItem.ok) = Except.ok (flattenChunks chunks) := by
  induction chunks with
  | nil => rfl
  | cons c rest ih => simp [downloadedBytes, flattenChunks, ih]

/-- Channel items ending in the error marker download to an observable
error, never to a silently truncated success. -/
theorem downloadedBytes_err (pre : List Chunk) (m : String) :
    downloadedBytes (pre.map ChanItem.ok ++ [ChanItem.err m]) = Except.error m := by
  induction pre with
  | nil => rfl
  | cons c rest ih => simp [downloadedBytes, ih]

/-- Alternative filename used by concrete witnesses; differs from
sampleName only in letter case. -/
def otherName : String := "F"

/-- The empty password text. -/
def emptyText : String := ""

/-- Claim C3: registering an upload inserts a new session if and only if
no entry exists for the FileId; a second upload for a registered,
unclaimed FileId fails with Conflict 409 and leaves the registry
untouched. -/
theorem upload_register_iff_absent (streams : Registry) (filename : String)
    (fresh : SessionId) :
    (lookupKey streams filename = none →
        upload_register streams filename fresh = ((filename, fresh) :: streams, none)
        ∧ lookupKey ((filename, fresh) :: streams) filename = some fresh)
    ∧ ((lookupKey streams filename).isSome →
        upload_register streams filename fresh = (streams, some conflict_response)
        ∧ conflict_response.status = 409) := by
  constructor
  · intro h
    exact ⟨by simp [upload_register, h], by simp [lookupKey]⟩
  · intro h
    exact ⟨by simp [upload_register, h], rfl⟩

/-- Witness for claim C3 at concrete registries. -/
theorem upload_register_iff_absent_witness :
    (upload_register [] sampleName 0 = ([(sampleName, 0)], none)
      ∧ lookupKey [(sampleName, 0)] sampleName = some 0)
    ∧ (upload_register [(sampleName, 0)] sampleName 1 = ([(sampleName, 0)], some conflict_response)
      ∧ conflict_response.status = 409) :=
  ⟨(upload_register_iff_absent [] sampleName 0).1 (by decide),
   (upload_register_iff_absent [(sampleName, 0)] sampleName 1).2 (by decide)⟩

/-- Claim C7: claiming a download atomically removes and returns the
registry entry for the FileId, after which the FileId is absent; a
download for a FileId with no registered upload receives NotFound 404
at once and the registry is unchanged. -/
theorem download_claim_removes_or_not_found (streams : Registry) (filename : String) :
    (∀ sid, lookupKey streams filename = some sid →
        download_claim streams filename = (removeKey streams filename, Except.ok sid)
        ∧ lookupKey (removeKey streams filename) filename = none)
    ∧ (lookupKey streams filename = none →
        download_claim streams filename = (streams, Except.error not_found_response)
        ∧ not_found_response.status = 404) := by
  constructor
  · intro sid h
    exact ⟨by simp [download_claim, h], lookupKey_removeKey streams filename⟩
  · intro h
    exact ⟨by simp [download_claim, h], rfl⟩

/-- Witness for claim C7 at concrete registries. -/
theorem download_claim_removes_or_not_found_witness :
    (download_claim [(sampleName, 5)] sampleName
        = (removeKey [(sampleName, 5)] sampleName, Except.ok 5)
      ∧ lookupKey (removeKey [(sampleName, 5)] sampleName) sampleName = none)
    ∧ (download_claim [] sampleName = ([], Except.error not_found_response)
      ∧ not_found_response.status = 404) :=
  ⟨(download_claim_removes_or_not_found [(sampleName, 5)] sampleName).1 5 (by decide),
   (download_claim_removes_or_not_found [] sampleName).2 (by decide)⟩

/-- Claim C4: when no downloader claims within the 300 s window, the
ready await times out, the task reports a timeout error without having
read any input, the upload request fails with the client-visible 400
error, the session is no longer in the registry afterward, and the
FileId can be registered again. -/
theorem upload_timeout_fails_and_frees (streams : Registry) (filename : String)
    (fresh fresh2 : SessionId) (dropAfter : Option Nat) (body : List BodyItem)
    (h : lookupKey streams filename = none) :
    (upload_register streams filename fresh).2 = none
    ∧ upload_task ReadyOutcome.timedOut dropAfter body
      = ([], TaskOutcome.err ("Timeout waiting for download client"))
    ∧ (upload_finish ((upload_register streams filename fresh).1) filename
        (CompleteRecv.got (upload_task ReadyOutcome.timedOut dropAfter body).2)).2.status = 400
    ∧ lookupKey (upload_finish ((upload_register streams filename fresh).1) filename
        (CompleteRecv.got (upload_task ReadyOutcome.timedOut dropAfter body).2)).1 filename
      = none
    ∧ (upload_register (upload_finish ((upload_register streams filename fresh).1) filename
        (CompleteRecv.got (upload_task ReadyOutcome.timedOut dropAfter body).2)).1
        filename fresh2).2 = none := by
  refine ⟨by simp [upload_register, h], rfl, ?_, ?_, ?_⟩
  · simp [upload_task, upload_finish]
  · simp [upload_task, upload_finish, lookupKey_removeKey]
  · simp [upload_task, upload_finish, upload_register, lookupKey_removeKey]

/-- Witness for claim C4 at a concrete pending upload. -/
theorem upload_timeout_fails_and_frees_witness :
    (upload_register [] sampleName 0).2 = none
    ∧ upload_task ReadyOutcome.timedOut none []
      = ([], TaskOutcome.err ("Timeout waiting for download client"))
    ∧ (upload_finish ((upload_register [] sampleName 0).1) sampleName
        (CompleteRecv.got (upload_task ReadyOutcome.timedOut none []).2)).2.status = 400
    ∧ lookupKey (upload_finish ((upload_register [] sampleName 0).1) sampleName
        (CompleteRecv.got (upload_task ReadyOutcome.timedOut none []).2)).1 sampleName
      = none
    ∧ (upload_register (upload_finish ((upload_register [] sampleName 0).1) sampleName
        (CompleteRecv.got (upload_task ReadyOutcome.timedOut none []).2)).1
        sampleName 1).2 = none :=
  upload_timeout_fails_and_frees [] sampleName 0 1 none [] (by decide)

/-- Claim C5: when the receiver side of the channel is dropped after k of
the chunks, the next forward fails, the pump stops reading further
input, so only the first k chunks enter the channel and fewer items
than the whole body are delivered, the task outcome is Ok, and the
upload request completes with 200 rather than an error. -/
theorem downloader_disconnect_success (chunks : List Chunk) (k : Nat)
    (streams : Registry) (filename : String) (h : k < chunks.length) :
    (upload_task ReadyOutcome.signaled (some k) (bodyOfChunks chunks)).1
      = (chunks.take k).map ChanItem.ok
    ∧ (upload_task ReadyOutcome.signaled (some k) (bodyOfChunks chunks)).2 = TaskOutcome.ok
    ∧ ((upload_task ReadyOutcome.signaled (some k) (bodyOfChunks chunks)).1).length
        < chunks.length
    ∧ (upload_finish streams filename (CompleteRecv.got
        (upload_task ReadyOutcome.signaled (some k) (bodyOfChunks chunks)).2)).2.status
      = 200 := by
  have hp := pumpChunks_dropAfter k chunks 0
  simp only [Nat.sub_zero] at hp
  refine ⟨by simp [upload_task, hp], by simp [upload_task, hp], ?_,
    by simp [upload_task, upload_finish, hp]⟩
  simp [upload_task, hp, List.length_take]
  omega

/-- Witness for claim C5 at a two-chunk body whose receiver drops after
one chunk. -/
theorem downloader_disconnect_success_witness :
    (upload_task ReadyOutcome.signaled (some 1) (bodyOfChunks [[1], [2]])).1
      = (([[1], [2]] : List Chunk).take 1).map ChanItem.ok
    ∧ (upload_task ReadyOutcome.signaled (some 1) (bodyOfChunks [[1], [2]])).2 = TaskOutcome.ok
    ∧ ((upload_task ReadyOutcome.signaled (some 1) (bodyOfChunks [[1], [2]])).1).length
        < ([[1], [2]] : List Chunk).length
    ∧ (upload_finish [] sampleName (CompleteRecv.got
        (upload_task ReadyOutcome.signaled (some 1) (bodyOfChunks [[1], [2]])).2)).2.status
      = 200 :=
  downloader_disconnect_success [[1], [2]] 1 [] sampleName (by decide)

/-- Claim C6: a read error from the inbound body is forwarded as the
in-band error marker after the chunks read so far, the pump ignores the
rest of the body and reports Err, the downloader observes the error
rather than a silently truncated success, and the upload request fails
with 400. -/
theorem read_error_forwarded (pre : List Chunk) (m : String) (rest : List BodyItem)
    (streams : Registry) (filename : String) :
    (upload_task ReadyOutcome.signaled none (bodyOfChunks pre ++ BodyItem.err m :: rest)).1
      = pre.map ChanItem.ok ++ [ChanItem.err m]
    ∧ (upload_task ReadyOutcome.signaled none (bodyOfChunks pre ++ BodyItem.err m :: rest)).2
      = TaskOutcome.err (("Stream error: ") ++ m)
    ∧ downloadedBytes ((upload_task ReadyOutcome.signaled none
        (bodyOfChunks pre ++ BodyItem.err m :: rest)).1) = Except.error m
    ∧ (upload_finish streams filename (CompleteRecv.got
        (upload_task ReadyOutcome.signaled none
          (bodyOfChunks pre ++ BodyItem.err m :: rest)).2)).2.status = 400 := by
  have hp := pumpChunks_err pre m rest 0
  exact ⟨by simp [upload_task, hp], by simp [upload_task, hp],
    by simp [upload_task, hp, downloadedBytes_err],
    by simp [upload_task, upload_finish, hp]⟩

/-- Claim C8: the pump forwards no chunk into the relay channel unless
the ready signal was received (a dropped ready sender or a timeout
leaves the channel empty), and in the download handler the ready signal
fires at the head of the action trace, before any channel item is
consumed. -/
theorem ready_before_streaming (ready : ReadyOutcome) (dropAfter : Option Nat)
    (body : List BodyItem) (items : List ChanItem) (i : Nat) (c : ChanItem) :
    (ready ≠ ReadyOutcome.signaled → (upload_task ready dropAfter body).1 = [])
    ∧ ((download_consume_trace items)[i]? = some (DAct.readChunk c) →
        0 < i ∧ (download_consume_trace items)[0]? = some DAct.fireReady) := by
  constructor
  · intro h
    cases ready with
    | signaled => exact absurd rfl h
    | dropped => rfl
    | timedOut => rfl
  · intro h
    refine ⟨?_, by simp [download_consume_trace]⟩
    by_contra hi
    have hz : i = 0 := by omega
    subst hz
    simp [download_consume_trace] at h

/-- Witness for claim C8: a timed-out session sends nothing, and the
trace for one delivered chunk fires ready at position zero, before the
chunk read at position one. -/
theorem ready_before_streaming_witness :
    (upload_task ReadyOutcome.timedOut none (bodyOfChunks [[1]])).1 = []
    ∧ (0 < 1 ∧ (download_consume_trace [ChanItem.ok [1]])[0]? = some DAct.fireReady) :=
  ⟨(ready_before_streaming ReadyOutcome.timedOut none (bodyOfChunks [[1]])
      [ChanItem.ok [1]] 1 (ChanItem.ok [1])).1 (by decide),
   (ready_before_streaming ReadyOutcome.timedOut none (bodyOfChunks [[1]])
      [ChanItem.ok [1]] 1 (ChanItem.ok [1])).2 (by decide)⟩

/-- Claim C9: credential verification fails Unauthorized on a missing or
malformed Authorization header, on a username differing from the
configured one (exact case-sensitive match required), on an empty
password (rejected for every choice of the hash oracles, hence before
any verification is attempted), and on a wrong password; a failure to
parse the stored hash is the Internal error, which is distinct from
Unauthorized. -/
theorem authenticate_user_cases {H : Type} (parseHash : String → Option H)
    (verifyPassword : String → H → Bool) (cfg : AuthConfig) (creds : BasicCreds) :
    extract_basic_auth none = Except.error AuthError.unauthorized
    ∧ extract_basic_auth (some none) = Except.error AuthError.unauthorized
    ∧ (creds.username ≠ cfg.username →
        authenticate_user parseHash verifyPassword cfg creds
          = Except.error AuthError.unauthorized)
    ∧ (creds.password = "" →
        authenticate_user parseHash verifyPassword cfg creds
          = Except.error AuthError.unauthorized)
    ∧ (creds.username = cfg.username → creds.password ≠ "" →
        parseHash cfg.password_hash = none →
        authenticate_user parseHash verifyPassword cfg creds
          = Except.error AuthError.internal)
    ∧ (∀ ph : H, creds.username = cfg.username → creds.password ≠ "" →
        parseHash cfg.password_hash = some ph →
        verifyPassword creds.password ph = false →
        authenticate_user parseHash verifyPassword cfg creds
          = Except.error AuthError.unauthorized)
    ∧ AuthError.internal ≠ AuthError.unauthorized := by
  refine ⟨rfl, rfl, ?_, ?_, ?_, ?_, by decide⟩
  · intro h
    simp [authenticate_user, h]
  · intro h
    by_cases hu : creds.username = cfg.username
    · simp [authenticate_user, hu, h]
    · simp [authenticate_user, hu]
  · intro hu hp hn
    simp [authenticate_user, hu, hp, hn]
  · intro ph hu hp hs hv
    simp [authenticate_user, hu, hp, hs, hv]

/-- Witness for claim C9 at concrete credentials: a username differing
only in letter case, an empty password, a failing hash parse, and a
failing verification. -/
theorem authenticate_user_cases_witness :
    authenticate_user (fun _ => (none : Option Unit)) (fun _ _ => false)
        ⟨sampleName, sampleName⟩ ⟨otherName, sampleName⟩
      = Except.error AuthError.unauthorized
    ∧ authenticate_user (fun _ => (none : Option Unit)) (fun _ _ => false)
        ⟨sampleName, sampleName⟩ ⟨sampleName, emptyText⟩
      = Except.error AuthError.unauthorized
    ∧ authenticate_user (fun _ => (none : Option Unit)) (fun _ _ => false)
        ⟨sampleName, sampleName⟩ ⟨sampleName, sampleName⟩
      = Except.error AuthError.internal
    ∧ authenticate_user (fun _ => some ()) (fun _ _ => false)
        ⟨sampleName, sampleName⟩ ⟨sampleName, sampleName⟩
      = Except.error AuthError.unauthorized :=
  ⟨(authenticate_user_cases (fun _ => (none : Option Unit)) (fun _ _ => false)
      ⟨sampleName, sampleName⟩ ⟨otherName, sampleName⟩).2.2.1 (by decide),
   (authenticate_user_cases (fun _ => (none : Option Unit)) (fun _ _ => false)
      ⟨sampleName, sampleName⟩ ⟨sampleName, emptyText⟩).2.2.2.1 (by decide),
   (authenticate_user_cases (fun _ => (none : Option Unit)) (fun _ _ => false)
      ⟨sampleName, sampleName⟩ ⟨sampleName, sampleName⟩).2.2.2.2.1
      (by decide) (by decide) rfl,
   (authenticate_user_cases (fun _ => some ()) (fun _ _ => false)
      ⟨sampleName, sampleName⟩ ⟨sampleName, sampleName⟩).2.2.2.2.2.1 ()
      (by decide) (by decide) rfl rfl⟩

/-- Claim C10: when the presented credentials fail, the upload handler
and the download handler both answer with the authentication error,
whose status is 401 or 500 and in particular neither 409 nor 404, leave
the registry exactly as it was, place nothing on any channel, and the
download handler consumes no session and fires no ready signal. -/
theorem auth_failure_leaves_registry {H : Type} (parseHash : String → Option H)
    (verifyPassword : String → H → Bool) (cfg : AuthConfig)
    (hdr : Option (Option BasicCreds)) (streams : Registry) (filename : String)
    (fresh : SessionId) (ready : ReadyOutcome) (dropAfter : Option Nat)
    (body : List BodyItem) (e : AuthError)
    (h : extract_basic_auth hdr = Except.error e
        ∨ ∃ creds, extract_basic_auth hdr = Except.ok creds
            ∧ authenticate_user parseHash verifyPassword cfg creds = Except.error e) :
    upload_handler hdr parseHash verifyPassword cfg streams filename fresh ready dropAfter body
      = (streams, auth_error_response e, [])
    ∧ download_handler hdr parseHash verifyPassword cfg streams filename
      = ⟨streams, (auth_error_response e).status, none, false⟩
    ∧ ((auth_error_response e).status = 401 ∨ (auth_error_response e).status = 500)
    ∧ (auth_error_response e).status ≠ 409
    ∧ (auth_error_response e).status ≠ 404 := by
  have hstat : (auth_error_response e).status = 401 ∨ (auth_error_response e).status = 500 := by
    cases e <;> simp [auth_error_response, unauthorized_response]
  refine ⟨?_, ?_, hstat, ?_, ?_⟩
  · rcases h with h | ⟨creds, hx, ha⟩
    · simp [upload_handler, h]
    · simp [upload_handler, hx, ha]
  · rcases h with h | ⟨creds, hx, ha⟩
    · simp [download_handler, h]
    · simp [download_handler, hx, ha]
  · rcases hstat with h1 | h1 <;> omega
  · rcases hstat with h1 | h1 <;> omega

/-- Witness for claim C10: a request with no Authorization header
against a one-session registry. -/
theorem auth_failure_leaves_registry_witness :
    upload_handler none (fun _ => (none : Option Unit)) (fun _ _ => false)
        ⟨sampleName, sampleName⟩ [(sampleName, 0)] sampleName 1
        ReadyOutcome.signaled none (bodyOfChunks [[1]])
      = ([(sampleName, 0)], auth_error_response AuthError.unauthorized, [])
    ∧ download_handler none (fun _ => (none : Option Unit)) (fun _ _ => false)
        ⟨sampleName, sampleName⟩ [(sampleName, 0)] sampleName
      = ⟨[(sampleName, 0)], (auth_error_response AuthError.unauthorized).status, none, false⟩
    ∧ ((auth_error_response AuthError.unauthorized).status = 401
        ∨ (auth_error_response AuthError.unauthorized).status = 500)
    ∧ (auth_error_response AuthError.unauthorized).status ≠ 409
    ∧ (auth_error_response AuthError.unauthorized).status ≠ 404 :=
  auth_failure_leaves_registry (fun _ => (none : Option Unit)) (fun _ _ => false)
    ⟨sampleName, sampleName⟩ none [(sampleName, 0)] sampleName 1
    ReadyOutcome.signaled none (bodyOfChunks [[1]]) AuthError.unauthorized
    (Or.inl rfl)

/-- Claim C1 fails as stated: the claim promises the round trip
regardless of which side connects first, but when the download connects
first the claim step finds an empty registry and the handler answers 404
at once, so the exchange for the one-chunk content 1 yields no bytes
rather than the content. -/
theorem download_first_no_roundtrip :
    ¬ relayExchange ArrivalOrder.downloadFirst sampleName [[1]] = some [1] := by
  decide

/-- Claim C1 (amended): when the upload registers before the download
arrives, the end-to-end exchange delivers to the downloader exactly the
uploaded bytes, and the channel carries the chunks in the exact order
they were read from the body (strict FIFO, no reordering); the empty
payload, with no chunks at all, round-trips as well. -/
theorem upload_then_download_roundtrip (filename : String) (chunks : List Chunk) :
    relayExchange ArrivalOrder.uploadFirst filename chunks = some (flattenChunks chunks)
    ∧ (upload_task ReadyOutcome.signaled none (bodyOfChunks chunks)).1
        = chunks.map ChanItem.ok := by
  have hp := pumpChunks_none chunks 0
  constructor
  · simp [relayExchange, upload_register, lookupKey, download_claim, removeKey,
      upload_task, hp, downloadedBytes_ok]
  · simp [upload_task, hp]

/-- Claim C2 fails on the code: in the schedule where an upload
registers the FileId, a downloader claims it, a second upload registers
the same FileId, and then the first upload handler finishes, the finish
step removes the second session from the registry, because lib.rs lines
320 to 333 remove the filename unconditionally in every completion arm.
The removal log of that run shows session 0 removed by its claim and
session 1 removed by the finish of the earlier upload, and the second
session is gone from the registry although it was never claimed and
never timed out, so its downloader would get 404 and its ready channel
is dropped. -/
theorem upload_finish_removes_later_registration :
    (runTrace [Ev.register sampleName, Ev.claim sampleName,
        Ev.register sampleName, Ev.finish sampleName]).removals
      = [(0, RemovedBy.byClaim), (1, RemovedBy.byFinish)]
    ∧ lookupKey (runTrace [Ev.register sampleName, Ev.claim sampleName,
        Ev.register sampleName, Ev.finish sampleName]).reg sampleName = none := by
  decide

end Beam
